import Mathlib

/-!
Verification development for the `djangofmt` configuration-resolution layer
(`crates/djangofmt/src/options.rs`).

The Rust code resolves formatter options from the nearest `pyproject.toml`
file: `find_pyproject_toml` walks the ancestor directories of a starting
path and returns the first directory containing a `pyproject.toml` file;
the file is then parsed by the `toml` crate into the serde-derived structs
`PyProject` / `Tool` / `DjangoFmtOptions`.

The embedding models the post-grammar stage of `toml::from_str` explicitly:
a TOML document is a tree of `Toml` values, and the serde-derived
deserializers for the structs of `options.rs` are translated field by field
(missing `Option` fields become `none`; `#[serde(default)]` on
`DjangoFmtOptions` fills missing fields from `DjangoFmtOptions.default`;
unknown keys are ignored, the serde default; enum `Profile` deserializes
from the exact variant names `"Django"` / `"Jinja"`; `usize` fields reject
negative integers). The TOML text grammar itself is external library code
and is abstracted: a file content is carried as an already-parsed outcome
`ParsedContent`, either a grammar-level failure message or a top-level
table. The filesystem is an explicit association list from absolute file
paths (lists of components) to contents.
-/

namespace Djangofmt

/-- A parsed TOML value, as produced by the grammar stage of the `toml`
crate: strings, integers, booleans, arrays and tables. Tables are
association lists with string keys (the `toml` crate rejects duplicate
keys at the grammar stage, so lookup order is immaterial for real
documents). -/
inductive Toml where
  | str : String → Toml
  | int : Int → Toml
  | boolean : Bool → Toml
  | arr : List Toml → Toml
  | table : List (String × Toml) → Toml

/-- Key lookup in a TOML table (first match wins). -/
def tomlLookup : List (String × Toml) → String → Option Toml
  | [], _ => none
  | (k, v) :: rest, key => if k = key then some v else tomlLookup rest key

/-- `Profile` from `options.rs`: the formatter profile enum, default
variant `Django`. -/
inductive Profile where
  | Django : Profile
  | Jinja : Profile
  deriving DecidableEq

/-- The `#[default]` variant of `Profile`. -/
def Profile.default : Profile := .Django

/-- `TryFrom<&str> for Profile` from `options.rs` (also backing `FromStr`,
used by the clap CLI): accepts the lowercase tokens. -/
def Profile.tryFrom (s : String) : Except String Profile :=
  if s = "django" then .ok .Django
  else if s = "jinja" then .ok .Jinja
  else .error ("Invalid profile: " ++ s ++ ". Valid options are django or jinja")

/-- `DjangoFmtOptions` from `options.rs`: the resolved configuration.
`usize` fields are modelled as `Nat`. -/
structure DjangoFmtOptions where
  line_length : Nat
  indent_width : Nat
  custom_blocks : List String
  profile : Profile
  deriving DecidableEq

/-- `Default for DjangoFmtOptions` from `options.rs`. -/
def DjangoFmtOptions.default : DjangoFmtOptions :=
  { line_length := 120
    indent_width := 4
    custom_blocks := []
    profile := Profile.default }

/-- `DjangoFmtOptions::new` from `options.rs`: each `Some` argument
overrides the corresponding field of the default (`unwrap_or`). -/
def DjangoFmtOptions.new (line_length : Option Nat) (indent_width : Option Nat)
    (custom_blocks : Option (List String)) (profile : Option Profile) :
    DjangoFmtOptions :=
  let dflt := DjangoFmtOptions.default
  { line_length := line_length.getD dflt.line_length
    indent_width := indent_width.getD dflt.indent_width
    custom_blocks := custom_blocks.getD dflt.custom_blocks
    profile := profile.getD dflt.profile }

/-- The serde-derived deserializer for enum `Profile` (no rename
attributes, so the accepted strings are the exact variant names). -/
def decodeProfile : Toml → Except String Profile
  | .str s =>
    if s = "Django" then .ok .Django
    else if s = "Jinja" then .ok .Jinja
    else .error ("unknown variant " ++ s ++ ", expected Django or Jinja")
  | _ => .error "invalid type: expected string for Profile"

/-- Deserialization of a `usize` field from a TOML value: the `toml` crate
yields an `i64`, and serde rejects negative values for `usize`. -/
def decodeUsize : Toml → Except String Nat
  | .int i =>
    if i < 0 then .error "invalid value: negative integer, expected usize"
    else .ok i.toNat
  | _ => .error "invalid type: expected integer"

/-- Deserialization of a single `String` element. -/
def decodeString : Toml → Except String String
  | .str s => .ok s
  | _ => .error "invalid type: expected string"

/-- Deserialization of the elements of a `Vec<String>` in sequence order;
the first failing element aborts. -/
def decodeStrings : List Toml → Except String (List String)
  | [] => .ok []
  | x :: xs =>
    match decodeString x, decodeStrings xs with
    | .ok s, .ok rest => .ok (s :: rest)
    | .error e, _ => .error e
    | _, .error e => .error e

/-- Deserialization of a `Vec<String>` field from a TOML value. -/
def decodeStringList : Toml → Except String (List String)
  | .arr l => decodeStrings l
  | _ => .error "invalid type: expected array"

/-- One field of a `#[serde(default)]` struct: a missing key takes the
default value, a present key must deserialize. -/
def decodeField {α : Type} (t : List (String × Toml)) (key : String)
    (dec : Toml → Except String α) (dflt : α) : Except String α :=
  match tomlLookup t key with
  | none => .ok dflt
  | some v => dec v

/-- The serde-derived deserializer for `DjangoFmtOptions`
(`#[serde(default)]`): the four recognized fields are read from the table,
missing ones fall back to `DjangoFmtOptions.default`, unknown keys are
ignored. -/
def decodeDjangoFmtOptions : Toml → Except String DjangoFmtOptions
  | .table t =>
    match decodeField t "line_length" decodeUsize DjangoFmtOptions.default.line_length,
        decodeField t "indent_width" decodeUsize DjangoFmtOptions.default.indent_width,
        decodeField t "custom_blocks" decodeStringList DjangoFmtOptions.default.custom_blocks,
        decodeField t "profile" decodeProfile DjangoFmtOptions.default.profile with
    | .ok ll, .ok iw, .ok cb, .ok pr =>
      .ok { line_length := ll, indent_width := iw, custom_blocks := cb, profile := pr }
    | .error e, _, _, _ => .error e
    | _, .error e, _, _ => .error e
    | _, _, .error e, _ => .error e
    | _, _, _, .error e => .error e
  | _ => .error "invalid type: expected table for DjangoFmtOptions"

/-- `Tool` from `options.rs`: the `[tool]` table, with an optional
`djangofmt` subsection. -/
structure Tool where
  djangofmt : Option DjangoFmtOptions

/-- `PyProject` from `options.rs`: the top-level document, with an
optional `tool` table. -/
structure PyProject where
  tool : Option Tool

/-- The serde-derived deserializer for `Tool`: a missing `djangofmt` key
yields `none` (serde `Option` + `#[serde(default)]`). -/
def decodeTool : Toml → Except String Tool
  | .table t =>
    match tomlLookup t "djangofmt" with
    | none => .ok { djangofmt := none }
    | some v => (decodeDjangoFmtOptions v).map fun o => { djangofmt := some o }
  | _ => .error "invalid type: expected table for Tool"

/-- The serde-derived deserializer for `PyProject` from the top-level
table: a missing `tool` key yields `none`. -/
def decodePyProject (t : List (String × Toml)) : Except String PyProject :=
  match tomlLookup t "tool" with
  | none => .ok { tool := none }
  | some v => (decodeTool v).map fun tl => { tool := some tl }

/-- The contents of a settings file after the TOML grammar stage of
`toml::from_str`: a grammar-level parse failure, or the top-level table. -/
def ParsedContent : Type := Except String (List (String × Toml))

/-- `load_options_from_pyproject_toml` from `options.rs`:
`toml::from_str::<PyProject>` followed by
`pyproject.tool.and_then(|t| t.djangofmt).unwrap_or_default()`. -/
def load_options_from_pyproject_toml (content : ParsedContent) :
    Except String DjangoFmtOptions :=
  match content with
  | .error e => .error e
  | .ok t =>
    match decodePyProject t with
    | .error e => .error e
    | .ok py => .ok ((py.tool.bind fun tl => tl.djangofmt).getD DjangoFmtOptions.default)

/-- A filesystem path, as its list of components. -/
abbrev FsPath := List String

/-- The filesystem visible to resolution: an association list from file
paths to their parsed contents. Directories need no explicit entries;
`is_file` is existence of an entry. -/
structure FileSystem where
  files : List (FsPath × ParsedContent)

/-- Reading a file (`fs::read_to_string` composed with the grammar stage):
`none` when no such file exists. -/
def FileSystem.read (fs : FileSystem) (p : FsPath) : Option ParsedContent :=
  go fs.files
where
  go : List (FsPath × ParsedContent) → Option ParsedContent
    | [] => none
    | (q, c) :: rest => if q = p then some c else go rest

/-- `Path::is_file` for this model. -/
def FileSystem.isFile (fs : FileSystem) (p : FsPath) : Bool :=
  (fs.read p).isSome

/-- `Path::ancestors`: the path itself, then each parent in turn, ending
with the empty path. -/
def ancestors (p : FsPath) : List FsPath :=
  (List.range (p.length + 1)).reverse.map fun k => p.take k

/-- `find_pyproject_toml` from `options.rs`: walk the ancestors of the
starting path innermost first and return the first `pyproject.toml` that
is a file. -/
def find_pyproject_toml (fs : FileSystem) (start_path : FsPath) : Option FsPath :=
  (ancestors start_path).findSome? fun directory =>
    let pyproject_toml := directory ++ ["pyproject.toml"]
    if fs.isFile pyproject_toml then some pyproject_toml else none

/-- `LoadOptionsError` from `options.rs`. The `io::Error` and
`toml::de::Error` payloads are carried as the failing path plus (for parse
errors) the message string. -/
inductive LoadOptionsError where
  | fileNotFound : LoadOptionsError
  | ioError : FsPath → LoadOptionsError
  | parseError : FsPath → String → LoadOptionsError
  deriving DecidableEq

/-- `load_options` from `options.rs`: locate the nearest `pyproject.toml`
(`FileNotFound` when absent), read it (`IoError` on failure), and parse it
(`ParseError` on failure). -/
def load_options (fs : FileSystem) (start_path : FsPath) :
    Except LoadOptionsError DjangoFmtOptions :=
  match find_pyproject_toml fs start_path with
  | none => .error .fileNotFound
  | some pyproject_path =>
    match fs.read pyproject_path with
    | none => .error (.ioError pyproject_path)
    | some content =>
      match load_options_from_pyproject_toml content with
      | .error e => .error (.parseError pyproject_path e)
      | .ok o => .ok o

/-! Concrete documents and filesystems used by the witnesses and
counterexamples below. -/

/-- The settings document of the spec's running example, with the profile
token left as a parameter: `[tool.djangofmt]` with `line_length=200`,
`indent_width=4`, `custom_blocks=['foo','bar']` and the given profile
string. -/
def settingsDoc (profileToken : String) : List (String × Toml) :=
  [("tool", Toml.table [("djangofmt", Toml.table
     [("line_length", Toml.int 200), ("indent_width", Toml.int 4),
      ("custom_blocks", Toml.arr [Toml.str "foo", Toml.str "bar"]),
      ("profile", Toml.str profileToken)])])]

/-- A settings document whose `tool.djangofmt` table holds only a profile
string. -/
def profileOnlyDoc (s : String) : List (String × Toml) :=
  [("tool", .table [("djangofmt", .table [("profile", .str s)])])]

/-- A filesystem with a single `pyproject.toml` at the root, holding
`profileOnlyDoc s`. -/
def profileFs (s : String) : FileSystem :=
  ⟨[(["pyproject.toml"], .ok (profileOnlyDoc s))]⟩

/-- A settings document whose `tool.djangofmt` table holds only a
`line_length` integer. -/
def lineLengthDoc (i : Int) : List (String × Toml) :=
  [("tool", Toml.table [("djangofmt", Toml.table [("line_length", Toml.int i)])])]

/-- A settings document whose `tool.djangofmt` table holds only an
`indent_width` integer. -/
def indentWidthDoc (i : Int) : List (String × Toml) :=
  [("tool", Toml.table [("djangofmt", Toml.table [("indent_width", Toml.int i)])])]

/-- A filesystem with a `pyproject.toml` both in the directory `project`
and at the root. -/
def nestedFs : FileSystem :=
  ⟨[(["project", "pyproject.toml"], .ok []), (["pyproject.toml"], .ok [])]⟩

/-- A table whose `custom_blocks` array holds the same string twice. -/
def dupBlocksTable : List (String × Toml) :=
  [("custom_blocks", Toml.arr [Toml.str "cache", Toml.str "cache"])]

/-- A filesystem with a single `pyproject.toml` at the root whose
`line_length` is the negative integer `-1`. -/
def negLineFs : FileSystem :=
  ⟨[(["pyproject.toml"], .ok (lineLengthDoc (-1)))]⟩

/-- A filesystem whose listing carries a duplicate entry for the root
`pyproject.toml` (the second entry is shadowed by the first). -/
def fsWithDup : FileSystem :=
  ⟨[(["pyproject.toml"], .ok []), (["pyproject.toml"], .ok [])]⟩

/-- The same filesystem as `fsWithDup` without the shadowed entry. -/
def fsPlain : FileSystem :=
  ⟨[(["pyproject.toml"], .ok [])]⟩

/-! Helper lemmas. -/

/-- Deserializing an array that is literally a list of TOML strings
succeeds and returns exactly those strings, in order. -/
theorem decodeStrings_map_str (l : List String) :
    decodeStrings (l.map Toml.str) = .ok l := by
  induction l with
  | nil => rfl
  | cons x xs ih => simp [decodeStrings, decodeString, ih]

/-- The ancestor chain starts with the path itself. -/
theorem ancestors_cons (p : FsPath) :
    ancestors p = p :: (List.range p.length).reverse.map (fun k => p.take k) := by
  simp [ancestors, List.range_succ]

/-- Any TOML value other than the two variant-name strings fails to
deserialize as a `Profile`. -/
theorem decodeProfile_error (v : Toml)
    (h1 : v ≠ .str "Django") (h2 : v ≠ .str "Jinja") :
    ∃ e, decodeProfile v = .error e := by
  cases v with
  | str s =>
    have hs1 : s ≠ "Django" := by intro hs; exact h1 (by rw [hs])
    have hs2 : s ≠ "Jinja" := by intro hs; exact h2 (by rw [hs])
    exact ⟨"unknown variant " ++ s ++ ", expected Django or Jinja",
      by simp [decodeProfile, hs1, hs2]⟩
  | int i => exact ⟨_, rfl⟩
  | boolean b => exact ⟨_, rfl⟩
  | arr l => exact ⟨_, rfl⟩
  | table t => exact ⟨_, rfl⟩

/-- If any of the four recognized fields of a `tool.djangofmt` table
fails to deserialize, the whole subsection fails to deserialize
(whatever the other fields hold). -/
theorem decodeDjangoFmtOptions_error (d : List (String × Toml))
    (h : (∃ e, decodeField d "line_length" decodeUsize
            DjangoFmtOptions.default.line_length = .error e) ∨
         (∃ e, decodeField d "indent_width" decodeUsize
            DjangoFmtOptions.default.indent_width = .error e) ∨
         (∃ e, decodeField d "custom_blocks" decodeStringList
            DjangoFmtOptions.default.custom_blocks = .error e) ∨
         (∃ e, decodeField d "profile" decodeProfile
            DjangoFmtOptions.default.profile = .error e)) :
    ∃ e, decodeDjangoFmtOptions (.table d) = .error e := by
  simp only [decodeDjangoFmtOptions]
  cases hll : decodeField d "line_length" decodeUsize
      DjangoFmtOptions.default.line_length with
  | error e =>
    cases decodeField d "indent_width" decodeUsize
        DjangoFmtOptions.default.indent_width <;>
      cases decodeField d "custom_blocks" decodeStringList
          DjangoFmtOptions.default.custom_blocks <;>
        cases decodeField d "profile" decodeProfile
            DjangoFmtOptions.default.profile <;>
          exact ⟨e, rfl⟩
  | ok ll =>
    cases hiw : decodeField d "indent_width" decodeUsize
        DjangoFmtOptions.default.indent_width with
    | error e =>
      cases decodeField d "custom_blocks" decodeStringList
          DjangoFmtOptions.default.custom_blocks <;>
        cases decodeField d "profile" decodeProfile
            DjangoFmtOptions.default.profile <;>
          exact ⟨e, rfl⟩
    | ok iw =>
      cases hcb : decodeField d "custom_blocks" decodeStringList
          DjangoFmtOptions.default.custom_blocks with
      | error e =>
        cases decodeField d "profile" decodeProfile
            DjangoFmtOptions.default.profile <;>
          exact ⟨e, rfl⟩
      | ok cb =>
        cases hpr : decodeField d "profile" decodeProfile
            DjangoFmtOptions.default.profile with
        | error e => exact ⟨e, rfl⟩
        | ok pr =>
          exfalso
          rcases h with ⟨e, he⟩ | ⟨e, he⟩ | ⟨e, he⟩ | ⟨e, he⟩ <;> simp_all

/-- A deserialization failure of the `tool.djangofmt` subsection of the
located settings file surfaces from `load_options` as `ParseError` at
that file's path. -/
theorem load_options_parse_error (fs : FileSystem) (start_path p : FsPath)
    (tbl t : List (String × Toml)) (sub : Toml) (e : String)
    (hfind : find_pyproject_toml fs start_path = some p)
    (hread : fs.read p = some (.ok tbl))
    (htool : tomlLookup tbl "tool" = some (.table t))
    (hdj : tomlLookup t "djangofmt" = some sub)
    (he : decodeDjangoFmtOptions sub = .error e) :
    load_options fs start_path = .error (.parseError p e) := by
  simp [load_options, hfind, hread, load_options_from_pyproject_toml, decodePyProject,
        htool, decodeTool, hdj, he, Except.map]

/-! Claim theorems. -/

/-- C1 (counterexample): on the spec's running example written with the
lowercase token `profile='django'`, resolution does not succeed — the
serde-derived deserializer for `Profile` rejects the lowercase spelling,
so the claim as stated is false. -/
theorem lowercase_profile_token_rejected :
    load_options_from_pyproject_toml (.ok (settingsDoc "django")) =
      .error "unknown variant django, expected Django or Jinja" := rfl

/-- C1 (amended): for the settings file specifying `line_length=200`,
`indent_width=4`, `custom_blocks=['foo','bar']` and the capitalized
variant name `profile='Django'` (the spelling the serde deserializer
requires, as in the repository's own test), resolution succeeds and
yields a configuration with exactly those values, with `custom_blocks`
in order `["foo", "bar"]` and profile `Django`. -/
theorem settings_resolution_exact_values :
    load_options_from_pyproject_toml (.ok (settingsDoc "Django")) =
      .ok { line_length := 200, indent_width := 4,
            custom_blocks := ["foo", "bar"], profile := .Django } := rfl

/-- C2: for every filesystem and every located settings file whose
`tool.djangofmt` table carries a profile value that is not one of the
two recognized variant tokens — whatever else the file or the subsection
contains — resolution fails with `ParseError` at that file; it never
silently substitutes the default `Django` profile. -/
theorem unrecognized_profile_parse_error (fs : FileSystem) (start_path p : FsPath)
    (tbl t d : List (String × Toml)) (v : Toml)
    (hfind : find_pyproject_toml fs start_path = some p)
    (hread : fs.read p = some (.ok tbl))
    (htool : tomlLookup tbl "tool" = some (.table t))
    (hdj : tomlLookup t "djangofmt" = some (.table d))
    (hprof : tomlLookup d "profile" = some v)
    (h1 : v ≠ .str "Django") (h2 : v ≠ .str "Jinja") :
    ∃ e, load_options fs start_path = .error (.parseError p e) := by
  obtain ⟨e0, he0⟩ := decodeProfile_error v h1 h2
  have hp : decodeField d "profile" decodeProfile
      DjangoFmtOptions.default.profile = .error e0 := by
    simp [decodeField, hprof, he0]
  obtain ⟨e, he⟩ :=
    decodeDjangoFmtOptions_error d (Or.inr (Or.inr (Or.inr ⟨e0, hp⟩)))
  exact ⟨e, load_options_parse_error fs start_path p tbl t (.table d) e
    hfind hread htool hdj he⟩

/-- C2 (witness): the concrete token `invalid` is unrecognized and makes
resolution fail with `ParseError`. -/
theorem unrecognized_profile_parse_error_witness :
    (Toml.str "invalid" ≠ Toml.str "Django" ∧
      Toml.str "invalid" ≠ Toml.str "Jinja") ∧
    ∃ e, load_options (profileFs "invalid") [] =
      .error (.parseError ["pyproject.toml"] e) :=
  ⟨⟨by simp, by simp⟩,
    unrecognized_profile_parse_error (profileFs "invalid") [] ["pyproject.toml"]
      (profileOnlyDoc "invalid")
      [("djangofmt", .table [("profile", .str "invalid")])]
      [("profile", .str "invalid")] (.str "invalid")
      rfl rfl rfl rfl rfl (by simp) (by simp)⟩

/-- C3: for every syntactically valid settings file in which the `tool`
table is absent, the `tool.djangofmt` subsection is absent, or the
subsection is present but empty, resolution succeeds and returns exactly
the built-in defaults `line_length=120`, `indent_width=4`,
`custom_blocks=[]`, `profile=Django`; absence is never an error. -/
theorem absent_subsection_yields_defaults (tbl : List (String × Toml))
    (h : tomlLookup tbl "tool" = none ∨
         ∃ t, tomlLookup tbl "tool" = some (.table t) ∧
           (tomlLookup t "djangofmt" = none ∨
             tomlLookup t "djangofmt" = some (.table []))) :
    load_options_from_pyproject_toml (.ok tbl) = .ok DjangoFmtOptions.default := by
  rcases h with h | ⟨t, ht, h | h⟩
  · simp [load_options_from_pyproject_toml, decodePyProject, h]
  · simp [load_options_from_pyproject_toml, decodePyProject, ht, decodeTool, h, Except.map,
          Option.bind]
  · simp [load_options_from_pyproject_toml, decodePyProject, ht, decodeTool, h, Except.map,
          decodeDjangoFmtOptions, decodeField, tomlLookup, Option.bind, DjangoFmtOptions.default]

/-- C3 (witness): the empty document resolves to the built-in defaults. -/
theorem absent_subsection_yields_defaults_witness :
    load_options_from_pyproject_toml (.ok []) = .ok DjangoFmtOptions.default :=
  absent_subsection_yields_defaults [] (Or.inl rfl)

/-- C4: whenever a `pyproject.toml` exists in the starting path's own
directory and also in a strictly farther ancestor directory, the locator
returns the file in the nearest directory: ancestors are probed innermost
first and the first hit wins. -/
theorem nearest_pyproject_wins (fs : FileSystem) (start_path a : FsPath)
    (ha : a ∈ ancestors start_path) (hne : a ≠ start_path)
    (h1 : fs.isFile (start_path ++ ["pyproject.toml"]) = true)
    (h2 : fs.isFile (a ++ ["pyproject.toml"]) = true) :
    find_pyproject_toml fs start_path = some (start_path ++ ["pyproject.toml"]) := by
  unfold find_pyproject_toml
  rw [ancestors_cons]
  simp [List.findSome?_cons, h1]

/-- C4 (witness): with a `pyproject.toml` in `project/` and another at the
root, starting from `project/` finds the nested one. -/
theorem nearest_pyproject_wins_witness :
    (([] : FsPath) ∈ ancestors ["project"] ∧ ([] : FsPath) ≠ ["project"] ∧
      nestedFs.isFile (["project"] ++ ["pyproject.toml"]) = true ∧
      nestedFs.isFile (([] : FsPath) ++ ["pyproject.toml"]) = true) ∧
    find_pyproject_toml nestedFs ["project"] = some (["project"] ++ ["pyproject.toml"]) :=
  ⟨⟨by decide, by decide, by decide, by decide⟩,
    nearest_pyproject_wins nestedFs ["project"] []
      (by decide) (by decide) (by decide) (by decide)⟩

/-- C5: when no ancestor of the starting path (the starting directory
included) contains a `pyproject.toml` file, the locator returns the
not-found result `none` and resolution fails with the `FileNotFound`
error kind. -/
theorem no_pyproject_file_not_found (fs : FileSystem) (start_path : FsPath)
    (h : ∀ a ∈ ancestors start_path, fs.isFile (a ++ ["pyproject.toml"]) = false) :
    find_pyproject_toml fs start_path = none ∧
      load_options fs start_path = .error .fileNotFound := by
  have hfind : find_pyproject_toml fs start_path = none := by
    unfold find_pyproject_toml
    rw [List.findSome?_eq_none_iff]
    intro a hamem
    simp [h a hamem]
  exact ⟨hfind, by simp [load_options, hfind]⟩

/-- C5 (witness): on an empty filesystem, starting from `home/user`, the
locator finds nothing and resolution reports `FileNotFound`. -/
theorem no_pyproject_file_not_found_witness :
    find_pyproject_toml ⟨[]⟩ ["home", "user"] = none ∧
      load_options ⟨[]⟩ ["home", "user"] = .error .fileNotFound :=
  no_pyproject_file_not_found ⟨[]⟩ ["home", "user"] (by decide)

/-- C6: a key of the `tool.djangofmt` table that is none of the four
recognized fields is ignored: adding it never causes resolution to fail
and never changes the decoded configuration. -/
theorem unknown_keys_ignored (t : List (String × Toml)) (k : String) (v : Toml)
    (h1 : k ≠ "line_length") (h2 : k ≠ "indent_width")
    (h3 : k ≠ "custom_blocks") (h4 : k ≠ "profile") :
    decodeDjangoFmtOptions (.table ((k, v) :: t)) = decodeDjangoFmtOptions (.table t) := by
  simp [decodeDjangoFmtOptions, decodeField, tomlLookup, h1, h2, h3, h4]

/-- C6 (witness): the unrecognized key `max_blank_lines` leaves the
decoded configuration unchanged. -/
theorem unknown_keys_ignored_witness :
    (("max_blank_lines" : String) ≠ "line_length" ∧
      ("max_blank_lines" : String) ≠ "indent_width" ∧
      ("max_blank_lines" : String) ≠ "custom_blocks" ∧
      ("max_blank_lines" : String) ≠ "profile") ∧
    decodeDjangoFmtOptions (.table [("max_blank_lines", .int 2)]) =
      decodeDjangoFmtOptions (.table []) :=
  ⟨⟨by decide, by decide, by decide, by decide⟩,
    unknown_keys_ignored [] "max_blank_lines" (.int 2)
      (by decide) (by decide) (by decide) (by decide)⟩

/-- C7: when the `custom_blocks` field of the `tool.djangofmt` table is a
list of strings, any successfully decoded configuration carries exactly
that list: element order is preserved and duplicates are kept — no
deduplication and no identifier-syntax validation happen at this layer. -/
theorem custom_blocks_preserved (t : List (String × Toml)) (l : List String)
    (hcb : tomlLookup t "custom_blocks" = some (.arr (l.map Toml.str)))
    (o : DjangoFmtOptions) (ho : decodeDjangoFmtOptions (.table t) = .ok o) :
    o.custom_blocks = l := by
  have hf : decodeField t "custom_blocks" decodeStringList
      DjangoFmtOptions.default.custom_blocks = .ok l := by
    simp [decodeField, hcb, decodeStringList, decodeStrings_map_str]
  simp only [decodeDjangoFmtOptions] at ho
  rw [hf] at ho
  cases hll : decodeField t "line_length" decodeUsize DjangoFmtOptions.default.line_length with
  | error e => rw [hll] at ho; simp at ho
  | ok ll =>
    rw [hll] at ho
    cases hiw : decodeField t "indent_width" decodeUsize
        DjangoFmtOptions.default.indent_width with
    | error e => rw [hiw] at ho; simp at ho
    | ok iw =>
      rw [hiw] at ho
      cases hpr : decodeField t "profile" decodeProfile DjangoFmtOptions.default.profile with
      | error e => rw [hpr] at ho; simp at ho
      | ok pr =>
        rw [hpr] at ho
        simp at ho
        rw [← ho]

/-- C7 (witness): a `custom_blocks` array holding `cache` twice decodes
to the configuration whose `custom_blocks` is exactly the duplicated
list, in order. -/
theorem custom_blocks_preserved_witness :
    (tomlLookup dupBlocksTable "custom_blocks" =
        some (.arr ((["cache", "cache"] : List String).map Toml.str)) ∧
      decodeDjangoFmtOptions (.table dupBlocksTable) =
        .ok { line_length := 120, indent_width := 4,
              custom_blocks := ["cache", "cache"], profile := .Django }) ∧
    ({ line_length := 120, indent_width := 4,
       custom_blocks := ["cache", "cache"],
       profile := .Django } : DjangoFmtOptions).custom_blocks = ["cache", "cache"] :=
  ⟨⟨rfl, rfl⟩,
    custom_blocks_preserved dupBlocksTable ["cache", "cache"] rfl
      { line_length := 120, indent_width := 4,
        custom_blocks := ["cache", "cache"], profile := .Django } rfl⟩

/-- C8: resolution is deterministic in the filesystem: it reads no state
other than the filesystem contents, so two filesystems that agree on
every file read give equal resolution results for every starting path —
in particular, resolving twice against an unchanged filesystem yields
equal configurations. -/
theorem resolution_deterministic (fs₁ fs₂ : FileSystem) (start_path : FsPath)
    (h : ∀ p, fs₁.read p = fs₂.read p) :
    load_options fs₁ start_path = load_options fs₂ start_path := by
  have hfind : find_pyproject_toml fs₁ start_path = find_pyproject_toml fs₂ start_path := by
    unfold find_pyproject_toml
    congr 1
    funext d
    simp [FileSystem.isFile, h]
  unfold load_options
  rw [hfind]
  simp only [h]

/-- C8 (witness): a filesystem listing with a shadowed duplicate entry
reads identically to the plain listing, and resolution agrees on both. -/
theorem resolution_deterministic_witness :
    load_options fsWithDup [] = load_options fsPlain [] :=
  resolution_deterministic fsWithDup fsPlain []
    (by
      intro p
      by_cases hp : (["pyproject.toml"] : FsPath) = p <;>
        simp [fsWithDup, fsPlain, FileSystem.read, FileSystem.read.go, hp])

/-- C9 (counterexample): `line_length` is a `usize`, so the non-positive
value `0` is accepted: resolution of a settings file with
`line_length = 0` succeeds and produces a configuration containing `0`,
contradicting the claim that every non-positive value fails with
`ParseError`. -/
theorem zero_line_length_accepted :
    load_options_from_pyproject_toml (.ok (lineLengthDoc 0)) =
      .ok { line_length := 0, indent_width := 4,
            custom_blocks := [], profile := .Django } := rfl

/-- C9 (amended): `line_length` and `indent_width` are non-negative
(`usize`): for every filesystem and every located settings file whose
`tool.djangofmt` table holds a negative integer for either field —
whatever else the file or the subsection contains — resolution fails
with `ParseError` rather than producing a configuration, while `0` is
accepted. -/
theorem negative_dimension_parse_error (fs : FileSystem) (start_path p : FsPath)
    (tbl t d : List (String × Toml)) (i : Int)
    (hfind : find_pyproject_toml fs start_path = some p)
    (hread : fs.read p = some (.ok tbl))
    (htool : tomlLookup tbl "tool" = some (.table t))
    (hdj : tomlLookup t "djangofmt" = some (.table d))
    (hneg : i < 0)
    (hfield : tomlLookup d "line_length" = some (.int i) ∨
              tomlLookup d "indent_width" = some (.int i)) :
    ∃ e, load_options fs start_path = .error (.parseError p e) := by
  have hdec : decodeUsize (.int i) =
      .error "invalid value: negative integer, expected usize" := by
    simp [decodeUsize, hneg]
  have herr : ∃ e, decodeDjangoFmtOptions (.table d) = .error e := by
    rcases hfield with hf | hf
    · exact decodeDjangoFmtOptions_error d
        (Or.inl ⟨"invalid value: negative integer, expected usize",
          by simp [decodeField, hf, hdec]⟩)
    · exact decodeDjangoFmtOptions_error d
        (Or.inr (Or.inl ⟨"invalid value: negative integer, expected usize",
          by simp [decodeField, hf, hdec]⟩))
  obtain ⟨e, he⟩ := herr
  exact ⟨e, load_options_parse_error fs start_path p tbl t (.table d) e
    hfind hread htool hdj he⟩

/-- C9 (witness): with `line_length = -1` in the located settings file,
resolution fails with `ParseError`. -/
theorem negative_dimension_parse_error_witness :
    (-1 : Int) < 0 ∧
    ∃ e, load_options negLineFs [] = .error (.parseError ["pyproject.toml"] e) :=
  ⟨by decide,
    negative_dimension_parse_error negLineFs [] ["pyproject.toml"]
      (lineLengthDoc (-1))
      [("djangofmt", .table [("line_length", .int (-1))])]
      [("line_length", .int (-1))] (-1)
      rfl rfl rfl rfl (by decide) (Or.inl rfl)⟩

/-- C10: `DjangoFmtOptions.new` returns the struct whose each field equals
the supplied `some` value when present and the built-in default when
`none`; in particular `new none none none none` equals the default
configuration. -/
theorem new_overrides_defaults (a b : Option Nat) (c : Option (List String))
    (d : Option Profile) :
    DjangoFmtOptions.new a b c d =
      { line_length := a.getD 120, indent_width := b.getD 4,
        custom_blocks := c.getD [], profile := d.getD Profile.Django } ∧
    DjangoFmtOptions.new none none none none = DjangoFmtOptions.default :=
  ⟨rfl, rfl⟩

end Djangofmt
